import Mathlib

/-!
Verification of the Arduino RPC protocol engine (ArduinoRPC.h) against its
design specification.  The repository ships only the class header; the
constants, the always-failing base-class byte stubs and the shape of the
slave state are embedded directly from `src/src/ArduinoRPC.h`, while the
bodies of the packet codec, the CRC, the timeout/retry policy and the
callback-table operations (which live in the missing ArduinoRPC.cpp) are
modelled from the specification's words, as indicated on each definition.
-/

set_option maxRecDepth 100000

/-- MAX_CALLBACKS, ArduinoRPC.h lines 26-32: 16 on AVR targets, 32 otherwise. -/
def MAX_CALLBACKS (avr : Bool) : Nat := if avr then 16 else 32

/-- MAX_LOCAL_BUFFER, ArduinoRPC.h lines 26-32: 32 on AVR targets, 256 otherwise. -/
def MAX_LOCAL_BUFFER (avr : Bool) : Nat := if avr then 32 else 256

/-- MIN_PACKET_SIZE, ArduinoRPC.h line 35: minimum sized buffer needed to
process an empty packet. -/
def MIN_PACKET_SIZE : Nat := 8

/-- Command-header packet magic, ArduinoRPC.h line 64. -/
def RPC.__COMMAND_HEADER_PACKET_MAGIC : Nat := 0x1209

/-- Command-data packet magic, ArduinoRPC.h line 65. -/
def RPC.__COMMAND_DATA_PACKET_MAGIC : Nat := 0xABD1

/-- Result-header packet magic, ArduinoRPC.h line 66. -/
def RPC.__RESULT_HEADER_PACKET_MAGIC : Nat := 0x9021

/-- Result-data packet magic, ArduinoRPC.h line 67. -/
def RPC.__RESULT_DATA_PACKET_MAGIC : Nat := 0x1DBA

/-- RPC::_put_long_timeout, ArduinoRPC.h line 71. -/
def RPC._put_long_timeout : Int := 5000

/-- RPC::_get_long_timeout, ArduinoRPC.h line 72. -/
def RPC._get_long_timeout : Int := 5000

/-- rpc_master::_put_short_timeout_reset, ArduinoRPC.h line 84. -/
def rpc_master._put_short_timeout_reset : Nat := 3

/-- rpc_master::_get_short_timeout_reset, ArduinoRPC.h line 85. -/
def rpc_master._get_short_timeout_reset : Nat := 3

/-- rpc_slave::_put_short_timeout_reset, ArduinoRPC.h line 103. -/
def rpc_slave._put_short_timeout_reset : Nat := 2

/-- rpc_slave::_get_short_timeout_reset, ArduinoRPC.h line 104. -/
def rpc_slave._get_short_timeout_reset : Nat := 2

/-- RPC::get_bytes, ArduinoRPC.h line 60: the base-class stub casts all three
arguments to void and returns false. -/
def RPC.get_bytes (_data : List Nat) (_len : Nat) (_timeout : Int) : Bool := false

/-- RPC::put_bytes, ArduinoRPC.h line 61: the base-class stub casts all three
arguments to void and returns false. -/
def RPC.put_bytes (_data : List Nat) (_len : Nat) (_timeout : Int) : Bool := false

/-- Whether RPC::get_bytes is declared `virtual` in ArduinoRPC.h line 60: it is
not (the keyword is absent). -/
def RPC.get_bytes_declared_virtual : Bool := false

/-- Whether RPC::put_bytes is declared `virtual` in ArduinoRPC.h line 61: it is
not (the keyword is absent). -/
def RPC.put_bytes_declared_virtual : Bool := false

/-- C++ member dispatch through a base-class pointer or reference: a call to a
member declared `virtual` selects the dynamic type's override, while a call to
a non-virtual member statically resolves to the base-class definition
regardless of any override the medium subclass declares. -/
def RPC.base_call_get_bytes (override : List Nat → Nat → Int → Bool)
    (data : List Nat) (len : Nat) (timeout : Int) : Bool :=
  if RPC.get_bytes_declared_virtual then override data len timeout
  else RPC.get_bytes data len timeout

/-- C++ member dispatch through a base-class pointer or reference for
RPC::put_bytes, as for `RPC.base_call_get_bytes`. -/
def RPC.base_call_put_bytes (override : List Nat → Nat → Int → Bool)
    (data : List Nat) (len : Nat) (timeout : Int) : Bool :=
  if RPC.put_bytes_declared_virtual then override data len timeout
  else RPC.put_bytes data len timeout

/-- Modelled from the spec: the body of RPC::crc16 (declared at ArduinoRPC.h
line 59) is not under src.  Spec section 4.1 requires a deterministic, pure
16-bit CRC whose exact polynomial is an implementation choice, so we fix the
CCITT polynomial 0x1021: one update step shifts the byte into the high half
and runs eight shift-and-conditionally-xor rounds. -/
def crc16_update (crc b : Nat) : Nat :=
  (List.range 8).foldl
    (fun c _ => if 32768 ≤ c then ((c * 2) ^^^ 0x1021) % 65536 else (c * 2) % 65536)
    ((crc ^^^ ((b % 256) * 256)) % 65536)

/-- Modelled from the spec: RPC::crc16 over a byte sequence, folding
`crc16_update` from the initial value 0xFFFF; the result is a 16-bit code. -/
def crc16 (data : List Nat) : Nat := (data.foldl crc16_update 0xFFFF) % 65536

/-- Failure reasons of the packet codec, from spec section 4.2. -/
inductive DecodeError where
  | Truncated
  | MarkerMismatch
  | ChecksumMismatch
deriving DecidableEq, Repr

instance {ε α : Type} [DecidableEq ε] [DecidableEq α] : DecidableEq (Except ε α) := fun a b =>
  match a, b with
  | .error e1, .error e2 =>
      if h : e1 = e2 then .isTrue (by rw [h])
      else .isFalse (fun hc => h (Except.error.inj hc))
  | .ok x, .ok y =>
      if h : x = y then .isTrue (by rw [h])
      else .isFalse (fun hc => h (Except.ok.inj hc))
  | .error _, .ok _ => .isFalse (fun hc => Except.noConfusion hc)
  | .ok _, .error _ => .isFalse (fun hc => Except.noConfusion hc)

/-- Modelled from the spec: the body of RPC::put_packet (declared at
ArduinoRPC.h line 58) is not under src.  Spec section 4.2: `encode(marker,
payload)` produces marker (2 bytes, low byte first) + payload + checksum
(2 bytes) computed over marker+payload. -/
def encode (marker : Nat) (payload : List Nat) : List Nat :=
  let body := marker % 256 :: marker / 256 % 256 :: payload
  body ++ [crc16 body % 256, crc16 body / 256 % 256]

/-- Modelled from the spec: the body of RPC::get_packet (declared at
ArduinoRPC.h line 57) is not under src.  Spec sections 3 and 4.2: a frame
shorter than the minimum frame size MIN_PACKET_SIZE is `Truncated`; a frame
whose leading two bytes do not carry the expected marker is `MarkerMismatch`;
a frame whose recomputed checksum over everything but its last two bytes
disagrees with the received trailing checksum is `ChecksumMismatch`; otherwise
the payload (frame minus marker and checksum) is returned. -/
def decode (frame : List Nat) (expected_marker : Nat) : Except DecodeError (List Nat) :=
  if frame.length < MIN_PACKET_SIZE then .error .Truncated
  else
    let in_marker := frame.getD 0 0 + 256 * frame.getD 1 0
    if in_marker ≠ expected_marker then .error .MarkerMismatch
    else
      let body := frame.take (frame.length - 2)
      let tail := frame.drop (frame.length - 2)
      let in_crc := tail.getD 0 0 + 256 * tail.getD 1 0
      if crc16 body ≠ in_crc then .error .ChecksumMismatch
      else .ok (body.drop 2)

theorem crc16_lt (data : List Nat) : crc16 data < 65536 :=
  Nat.mod_lt _ (by norm_num)

theorem encode_eq (marker : Nat) (payload : List Nat) :
    encode marker payload =
      (marker % 256 :: marker / 256 % 256 :: payload) ++
        [crc16 (marker % 256 :: marker / 256 % 256 :: payload) % 256,
         crc16 (marker % 256 :: marker / 256 % 256 :: payload) / 256 % 256] := rfl

theorem encode_length (marker : Nat) (payload : List Nat) :
    (encode marker payload).length = payload.length + 4 := by
  rw [encode_eq]
  simp only [List.length_append, List.length_cons, List.length_nil]

theorem encode_getD_zero (marker : Nat) (payload : List Nat) :
    (encode marker payload).getD 0 0 = marker % 256 := by
  rw [encode_eq]; rfl

theorem encode_getD_one (marker : Nat) (payload : List Nat) :
    (encode marker payload).getD 1 0 = marker / 256 % 256 := by
  rw [encode_eq]; rfl

theorem encode_take (marker : Nat) (payload : List Nat) :
    (encode marker payload).take ((encode marker payload).length - 2)
      = marker % 256 :: marker / 256 % 256 :: payload := by
  rw [encode_length, encode_eq]
  have h2 : payload.length + 4 - 2 = (marker % 256 :: marker / 256 % 256 :: payload).length := by
    simp only [List.length_cons]; omega
  rw [h2, List.take_left]

theorem encode_drop (marker : Nat) (payload : List Nat) :
    (encode marker payload).drop ((encode marker payload).length - 2)
      = [crc16 (marker % 256 :: marker / 256 % 256 :: payload) % 256,
         crc16 (marker % 256 :: marker / 256 % 256 :: payload) / 256 % 256] := by
  rw [encode_length, encode_eq]
  have h2 : payload.length + 4 - 2 = (marker % 256 :: marker / 256 % 256 :: payload).length := by
    simp only [List.length_cons]; omega
  rw [h2, List.drop_left]

theorem decode_encode_roundtrip (marker : Nat) (payload : List Nat)
    (hm : marker < 65536) (h4 : 4 ≤ payload.length) :
    decode (encode marker payload) marker = Except.ok payload := by
  have hlt := crc16_lt (marker % 256 :: marker / 256 % 256 :: payload)
  have h8 : ¬ ((encode marker payload).length < MIN_PACKET_SIZE) := by
    rw [encode_length]; simp only [MIN_PACKET_SIZE]; omega
  have hm_eq : (encode marker payload).getD 0 0 + 256 * (encode marker payload).getD 1 0
      = marker := by
    rw [encode_getD_zero, encode_getD_one]; omega
  have hcrc_eq :
      ((encode marker payload).drop ((encode marker payload).length - 2)).getD 0 0 +
        256 * ((encode marker payload).drop ((encode marker payload).length - 2)).getD 1 0
      = crc16 ((encode marker payload).take ((encode marker payload).length - 2)) := by
    rw [encode_drop, encode_take]
    simp only [List.getD, List.get?, Option.getD_some]
    omega
  simp only [decode]
  rw [if_neg h8, hm_eq]
  rw [if_neg (show ¬ (marker ≠ marker) from fun h => h rfl)]
  rw [hcrc_eq]
  rw [if_neg (show ¬ (crc16 ((encode marker payload).take ((encode marker payload).length - 2))
      ≠ crc16 ((encode marker payload).take ((encode marker payload).length - 2)))
    from fun h => h rfl)]
  rw [encode_take]
  rfl

theorem decode_encode_marker_mismatch (m1 m2 : Nat) (payload : List Nat)
    (h1 : m1 < 65536) (hne : m1 ≠ m2) (h4 : 4 ≤ payload.length) :
    decode (encode m1 payload) m2 = Except.error DecodeError.MarkerMismatch := by
  have h8 : ¬ ((encode m1 payload).length < MIN_PACKET_SIZE) := by
    rw [encode_length]; simp only [MIN_PACKET_SIZE]; omega
  have hm_eq : (encode m1 payload).getD 0 0 + 256 * (encode m1 payload).getD 1 0 = m1 := by
    rw [encode_getD_zero, encode_getD_one]; omega
  simp only [decode]
  rw [if_neg h8, hm_eq, if_pos hne]

theorem decode_ok_conditions (frame : List Nat) (m : Nat) (p : List Nat)
    (h : decode frame m = Except.ok p) :
    MIN_PACKET_SIZE ≤ frame.length ∧
      crc16 (frame.take (frame.length - 2)) =
        (frame.drop (frame.length - 2)).getD 0 0 +
          256 * (frame.drop (frame.length - 2)).getD 1 0 := by
  simp only [decode] at h
  by_cases h8 : frame.length < MIN_PACKET_SIZE
  · rw [if_pos h8] at h
    exact Except.noConfusion h
  · rw [if_neg h8] at h
    refine ⟨by omega, ?_⟩
    by_cases hmk : frame.getD 0 0 + 256 * frame.getD 1 0 ≠ m
    · rw [if_pos hmk] at h
      exact Except.noConfusion h
    · rw [if_neg hmk] at h
      by_cases hcrc : crc16 (frame.take (frame.length - 2)) ≠
          (frame.drop (frame.length - 2)).getD 0 0 +
            256 * (frame.drop (frame.length - 2)).getD 1 0
      · rw [if_pos hcrc] at h
        exact Except.noConfusion h
      · push_neg at hcrc; exact hcrc

theorem decode_truncated (frame : List Nat) (m : Nat)
    (h : frame.length < MIN_PACKET_SIZE) :
    decode frame m = Except.error DecodeError.Truncated := by
  simp [decode, h]

/-- C1 (corrected): the round-trip law as stated fails for payloads shorter
than 4 bytes, whose frames fall below the 8-byte minimum frame size; the empty
payload is within the local buffer capacity yet decoding its encoding is
rejected as Truncated. -/
theorem C1_roundtrip_counterexample :
    ([] : List Nat).length ≤ MAX_LOCAL_BUFFER true ∧
    decode (encode RPC.__COMMAND_HEADER_PACKET_MAGIC []) RPC.__COMMAND_HEADER_PACKET_MAGIC
      = Except.error DecodeError.Truncated :=
  ⟨by decide, by decide⟩

/-- C1 (amended): for every payload of length at least 4 (so that its frame
meets the 8-byte minimum frame size) and within the medium's local buffer
capacity, and each of the four packet markers, encoding the payload under that
marker and decoding the resulting frame expecting the same marker succeeds and
returns the payload unchanged. -/
theorem C1_roundtrip (avr : Bool) (marker : Nat) (payload : List Nat)
    (hmk : marker = RPC.__COMMAND_HEADER_PACKET_MAGIC ∨
           marker = RPC.__COMMAND_DATA_PACKET_MAGIC ∨
           marker = RPC.__RESULT_HEADER_PACKET_MAGIC ∨
           marker = RPC.__RESULT_DATA_PACKET_MAGIC)
    (h4 : 4 ≤ payload.length)
    (_hcap : payload.length ≤ MAX_LOCAL_BUFFER avr) :
    decode (encode marker payload) marker = Except.ok payload := by
  have hm : marker < 65536 := by
    rcases hmk with h | h | h | h <;> rw [h] <;> decide
  exact decode_encode_roundtrip marker payload hm h4

/-- C1 witness: the amended round-trip law at a concrete 4-byte payload under
the command-header marker on an AVR-sized buffer. -/
theorem C1_roundtrip_witness :
    decode (encode RPC.__COMMAND_HEADER_PACKET_MAGIC [1, 2, 3, 4])
        RPC.__COMMAND_HEADER_PACKET_MAGIC
      = Except.ok [1, 2, 3, 4] :=
  C1_roundtrip true RPC.__COMMAND_HEADER_PACKET_MAGIC [1, 2, 3, 4]
    (Or.inl rfl) (by decide) (by decide)

/-- C6: the four packet marker constants of ArduinoRPC.h lines 64-67 are
pairwise distinct 16-bit values, and a receiver expecting one 16-bit marker
rejects with MarkerMismatch any well-formed frame encoded under a different
marker. -/
theorem C6_markers_distinct :
    (RPC.__COMMAND_HEADER_PACKET_MAGIC < 65536 ∧
     RPC.__COMMAND_DATA_PACKET_MAGIC < 65536 ∧
     RPC.__RESULT_HEADER_PACKET_MAGIC < 65536 ∧
     RPC.__RESULT_DATA_PACKET_MAGIC < 65536) ∧
    (RPC.__COMMAND_HEADER_PACKET_MAGIC ≠ RPC.__COMMAND_DATA_PACKET_MAGIC ∧
     RPC.__COMMAND_HEADER_PACKET_MAGIC ≠ RPC.__RESULT_HEADER_PACKET_MAGIC ∧
     RPC.__COMMAND_HEADER_PACKET_MAGIC ≠ RPC.__RESULT_DATA_PACKET_MAGIC ∧
     RPC.__COMMAND_DATA_PACKET_MAGIC ≠ RPC.__RESULT_HEADER_PACKET_MAGIC ∧
     RPC.__COMMAND_DATA_PACKET_MAGIC ≠ RPC.__RESULT_DATA_PACKET_MAGIC ∧
     RPC.__RESULT_HEADER_PACKET_MAGIC ≠ RPC.__RESULT_DATA_PACKET_MAGIC) ∧
    (∀ m1 m2 : Nat, ∀ payload : List Nat,
      m1 < 65536 → m2 < 65536 → m1 ≠ m2 → 4 ≤ payload.length →
      decode (encode m1 payload) m2 = Except.error DecodeError.MarkerMismatch) := by
  refine ⟨by decide, by decide, ?_⟩
  intro m1 m2 payload h1 _h2 hne h4
  exact decode_encode_marker_mismatch m1 m2 payload h1 hne h4

/-- C6 witness: a frame encoded under the command-header marker is rejected
when the receiver expects the command-data marker. -/
theorem C6_markers_distinct_witness :
    decode (encode RPC.__COMMAND_HEADER_PACKET_MAGIC [0, 0, 0, 0])
        RPC.__COMMAND_DATA_PACKET_MAGIC
      = Except.error DecodeError.MarkerMismatch :=
  C6_markers_distinct.2.2 RPC.__COMMAND_HEADER_PACKET_MAGIC RPC.__COMMAND_DATA_PACKET_MAGIC
    [0, 0, 0, 0] (by decide) (by decide) (by decide) (by decide)

/-- C7: a frame shorter than the 8-byte minimum frame size is rejected as
Truncated, and a frame is accepted (decode returns a payload) only when its
length is at least the minimum frame size and the checksum recomputed over
everything but its trailing two bytes equals the received trailing checksum. -/
theorem C7_accept_conditions (frame : List Nat) (m : Nat) :
    (frame.length < MIN_PACKET_SIZE → decode frame m = Except.error DecodeError.Truncated) ∧
    (∀ p : List Nat, decode frame m = Except.ok p →
      MIN_PACKET_SIZE ≤ frame.length ∧
        crc16 (frame.take (frame.length - 2)) =
          (frame.drop (frame.length - 2)).getD 0 0 +
            256 * (frame.drop (frame.length - 2)).getD 1 0) :=
  ⟨fun h => decode_truncated frame m h, fun p h => decode_ok_conditions frame m p h⟩

/-- C7 witness: a 3-byte frame is rejected as Truncated, and a concrete valid
8-byte frame satisfies the acceptance conditions. -/
theorem C7_accept_conditions_witness :
    decode [1, 2, 3] RPC.__COMMAND_HEADER_PACKET_MAGIC
        = Except.error DecodeError.Truncated ∧
    (MIN_PACKET_SIZE ≤ (encode RPC.__COMMAND_HEADER_PACKET_MAGIC [1, 2, 3, 4]).length ∧
      crc16 ((encode RPC.__COMMAND_HEADER_PACKET_MAGIC [1, 2, 3, 4]).take
          ((encode RPC.__COMMAND_HEADER_PACKET_MAGIC [1, 2, 3, 4]).length - 2)) =
        ((encode RPC.__COMMAND_HEADER_PACKET_MAGIC [1, 2, 3, 4]).drop
            ((encode RPC.__COMMAND_HEADER_PACKET_MAGIC [1, 2, 3, 4]).length - 2)).getD 0 0 +
          256 * ((encode RPC.__COMMAND_HEADER_PACKET_MAGIC [1, 2, 3, 4]).drop
            ((encode RPC.__COMMAND_HEADER_PACKET_MAGIC [1, 2, 3, 4]).length - 2)).getD 1 0) :=
  ⟨(C7_accept_conditions [1, 2, 3] RPC.__COMMAND_HEADER_PACKET_MAGIC).1 (by decide),
   (C7_accept_conditions (encode RPC.__COMMAND_HEADER_PACKET_MAGIC [1, 2, 3, 4])
       RPC.__COMMAND_HEADER_PACKET_MAGIC).2 [1, 2, 3, 4] (by decide)⟩

/-- Result of a registration attempt, from spec section 4.5. -/
inductive RegResult where
  | Ok
  | TableFull
deriving DecidableEq, Repr

/-- Slave engine state, from ArduinoRPC.h lines 100-102: the fixed-capacity
callback array _rpcList together with its count _rpc_count of live entries is
modelled as the list of live entries (whose length is _rpc_count); the single
deferred handler pointer _schedule_cb (initialised to NULL, modelled as none)
is the only deferred-handler storage the class declares.  Handlers are kept
abstract in the type parameter. -/
structure rpc_slave (α : Type) where
  _rpcList : List (Nat × α)
  _schedule_cb : Option α
deriving DecidableEq

/-- Modelled from the spec: a fresh slave engine starts with an empty callback
table and no deferred handler (the constructor body is not under src). -/
def rpc_slave.fresh {α : Type} : rpc_slave α := ⟨[], none⟩

/-- Modelled from the spec: the body of rpc_slave::register_callback (declared
at ArduinoRPC.h line 92) is not under src.  Spec section 4.5: it inserts a new
callback entry, fails with TableFull if capacity is exhausted, and is a silent
no-op if rpc_id is already registered. -/
def rpc_slave.register_callback {α : Type} (maxCallbacks : Nat) (s : rpc_slave α)
    (rpc_id : Nat) (pfnCB : α) : rpc_slave α × RegResult :=
  if maxCallbacks ≤ s._rpcList.length then (s, RegResult.TableFull)
  else if s._rpcList.any fun e => e.1 == rpc_id then (s, RegResult.Ok)
  else ({ s with _rpcList := s._rpcList ++ [(rpc_id, pfnCB)] }, RegResult.Ok)

/-- Modelled from the spec: the body of rpc_slave::find_callback (declared at
ArduinoRPC.h line 95) is not under src.  Spec section 4.5: linear lookup in
the callback table, returning the handler or NotFound (a null handler,
modelled as none). -/
def rpc_slave.find_callback {α : Type} (s : rpc_slave α) (rpc_id : Nat) : Option α :=
  (s._rpcList.find? fun e => e.1 == rpc_id).map Prod.snd

/-- Modelled from the spec: the body of rpc_slave::schedule_callback (declared
at ArduinoRPC.h line 93) is not under src.  Spec section 4.5: it registers a
single deferred handler, a new registration replacing the previous one; the
header's single pointer _schedule_cb is the only storage for it. -/
def rpc_slave.schedule_callback {α : Type} (s : rpc_slave α) (pfnCB : α) : rpc_slave α :=
  { s with _schedule_cb := some pfnCB }

/-- Sequential registration of a list of (identifier, handler) pairs, together
with the conjunction of the individual success results. -/
def rpc_slave.register_all {α : Type} (maxCallbacks : Nat) (s : rpc_slave α) :
    List (Nat × α) → rpc_slave α × Bool
  | [] => (s, true)
  | p :: rest =>
    let r1 := rpc_slave.register_callback maxCallbacks s p.1 p.2
    let r2 := rpc_slave.register_all maxCallbacks r1.1 rest
    (r2.1, match r1.2 with
           | RegResult.Ok => r2.2
           | RegResult.TableFull => false)

/-- States of a slave engine reachable from a fresh engine through its two
table-mutating operations. -/
inductive rpc_slave.Reachable {α : Type} (maxCallbacks : Nat) : rpc_slave α → Prop where
  | fresh : rpc_slave.Reachable maxCallbacks rpc_slave.fresh
  | register (s : rpc_slave α) (rpc_id : Nat) (pfnCB : α) :
      rpc_slave.Reachable maxCallbacks s →
      rpc_slave.Reachable maxCallbacks
        (rpc_slave.register_callback maxCallbacks s rpc_id pfnCB).1
  | schedule (s : rpc_slave α) (pfnCB : α) :
      rpc_slave.Reachable maxCallbacks s →
      rpc_slave.Reachable maxCallbacks (rpc_slave.schedule_callback s pfnCB)

theorem register_callback_full {α : Type} (maxCallbacks : Nat) (s : rpc_slave α)
    (rpc_id : Nat) (pfnCB : α) (hfull : maxCallbacks ≤ s._rpcList.length) :
    rpc_slave.register_callback maxCallbacks s rpc_id pfnCB = (s, RegResult.TableFull) := by
  unfold rpc_slave.register_callback
  rw [if_pos hfull]

theorem register_callback_dup {α : Type} (maxCallbacks : Nat) (s : rpc_slave α)
    (rpc_id : Nat) (pfnCB : α)
    (hdup : (s._rpcList.any fun e => e.1 == rpc_id) = true) :
    (rpc_slave.register_callback maxCallbacks s rpc_id pfnCB).1 = s := by
  unfold rpc_slave.register_callback
  by_cases hfull : maxCallbacks ≤ s._rpcList.length
  · rw [if_pos hfull]
  · rw [if_neg hfull, hdup]
    simp

theorem register_callback_new {α : Type} (maxCallbacks : Nat) (s : rpc_slave α)
    (rpc_id : Nat) (pfnCB : α) (hroom : s._rpcList.length < maxCallbacks)
    (hnew : (s._rpcList.any fun e => e.1 == rpc_id) = false) :
    rpc_slave.register_callback maxCallbacks s rpc_id pfnCB =
      ({ s with _rpcList := s._rpcList ++ [(rpc_id, pfnCB)] }, RegResult.Ok) := by
  unfold rpc_slave.register_callback
  rw [if_neg (by omega), hnew]
  simp

theorem reachable_nodup {α : Type} (maxCallbacks : Nat) (s : rpc_slave α)
    (h : rpc_slave.Reachable maxCallbacks s) : (s._rpcList.map Prod.fst).Nodup := by
  induction h with
  | fresh => simp [rpc_slave.fresh]
  | register s rpc_id pfnCB _ ih =>
    by_cases hfull : maxCallbacks ≤ s._rpcList.length
    · rw [register_callback_full maxCallbacks s rpc_id pfnCB hfull]
      exact ih
    · by_cases hdup : (s._rpcList.any fun e => e.1 == rpc_id) = true
      · rw [register_callback_dup maxCallbacks s rpc_id pfnCB hdup]
        exact ih
      · have hnew := Bool.eq_false_iff.mpr hdup
        rw [register_callback_new maxCallbacks s rpc_id pfnCB (by omega) hnew]
        have hmem : rpc_id ∉ s._rpcList.map Prod.fst := by
          intro hmem
          rcases List.mem_map.mp hmem with ⟨e, he, hfst⟩
          have : (s._rpcList.any fun e => e.1 == rpc_id) = true :=
            List.any_eq_true.mpr ⟨e, he, by simp [hfst]⟩
          rw [this] at hnew
          exact Bool.noConfusion hnew
        simp only [List.map_append, List.map_cons, List.map_nil]
        simp [List.nodup_append]
        exact ⟨ih, fun x hx => hmem (List.mem_map_of_mem Prod.fst hx)⟩
  | schedule s pfnCB _ ih =>
    simpa [rpc_slave.schedule_callback] using ih

theorem register_all_spec {α : Type} (maxCallbacks : Nat) (pairs : List (Nat × α)) :
    ∀ s : rpc_slave α,
      (pairs.map Prod.fst).Nodup →
      (∀ p ∈ pairs, ∀ e ∈ s._rpcList, e.1 ≠ p.1) →
      s._rpcList.length + pairs.length ≤ maxCallbacks →
      rpc_slave.register_all maxCallbacks s pairs =
        ({ s with _rpcList := s._rpcList ++ pairs }, true) := by
  induction pairs with
  | nil => intro s _ _ _; simp [rpc_slave.register_all]
  | cons p rest ih =>
    intro s hnd hdisj hlen
    obtain ⟨pid, pcb⟩ := p
    have hroom : s._rpcList.length < maxCallbacks := by
      simp only [List.length_cons] at hlen; omega
    have hnew : (s._rpcList.any fun e => e.1 == pid) = false := by
      rw [List.any_eq_false]
      intro e he
      simp only [beq_iff_eq]
      exact hdisj (pid, pcb) (List.mem_cons_self _ _) e he
    have hpid_rest : pid ∉ rest.map Prod.fst := by
      simp only [List.map_cons] at hnd
      exact (List.nodup_cons.mp hnd).1
    unfold rpc_slave.register_all
    rw [register_callback_new maxCallbacks s pid pcb hroom hnew]
    have hrec := ih { s with _rpcList := s._rpcList ++ [(pid, pcb)] }
      (by simp only [List.map_cons] at hnd; exact (List.nodup_cons.mp hnd).2)
      (by
        intro q hq e he
        rcases List.mem_append.mp he with he' | he'
        · exact hdisj q (List.mem_cons_of_mem _ hq) e he'
        · have : e = (pid, pcb) := by simpa using he'
          rw [this]
          intro hc
          refine hpid_rest ?_
          rw [show pid = q.1 from hc]
          exact List.mem_map_of_mem Prod.fst hq
      )
      (by simp only [List.length_append, List.length_cons, List.length_nil] at *; omega)
    simp only [hrec]
    simp [List.append_assoc]

theorem find?_pairs_of_mem {α : Type} (pairs : List (Nat × α))
    (hnd : (pairs.map Prod.fst).Nodup) (p : Nat × α) (hp : p ∈ pairs) :
    (pairs.find? fun e => e.1 == p.1) = some p := by
  induction pairs with
  | nil => cases hp
  | cons q rest ih =>
    rcases List.mem_cons.mp hp with rfl | hp'
    · exact List.find?_cons_of_pos rest (by simp)
    · have hqrest : q.1 ∉ rest.map Prod.fst := by
        simp only [List.map_cons] at hnd
        exact (List.nodup_cons.mp hnd).1
      have hq : ¬ ((q.1 == p.1) = true) := by
        simp only [beq_iff_eq]
        intro hc
        refine hqrest ?_
        rw [hc]
        exact List.mem_map_of_mem Prod.fst hp'
      rw [List.find?_cons_of_neg rest hq]
      exact ih (by simp only [List.map_cons] at hnd; exact (List.nodup_cons.mp hnd).2) hp'

/-- C2: MAX_CALLBACKS is 16 on AVR targets and 32 otherwise; starting from a
fresh slave engine, registering MAX_CALLBACKS pairwise-distinct identifiers
succeeds for each of them, and the next registration of a further distinct
identifier fails with TableFull and returns the engine state (table contents
and count) unchanged. -/
theorem C2_register_table_full {α : Type} (avr : Bool) (pairs : List (Nat × α))
    (hnd : (pairs.map Prod.fst).Nodup) (hlen : pairs.length = MAX_CALLBACKS avr)
    (newId : Nat) (newCb : α) (_hnew : newId ∉ pairs.map Prod.fst) :
    (MAX_CALLBACKS true = 16 ∧ MAX_CALLBACKS false = 32) ∧
    (rpc_slave.register_all (MAX_CALLBACKS avr) rpc_slave.fresh pairs).2 = true ∧
    rpc_slave.register_callback (MAX_CALLBACKS avr)
        (rpc_slave.register_all (MAX_CALLBACKS avr) rpc_slave.fresh pairs).1 newId newCb
      = ((rpc_slave.register_all (MAX_CALLBACKS avr) rpc_slave.fresh pairs).1,
          RegResult.TableFull) := by
  have hall := register_all_spec (MAX_CALLBACKS avr) pairs rpc_slave.fresh hnd
    (by intro p _ e he; simp [rpc_slave.fresh] at he)
    (by simp [rpc_slave.fresh]; omega)
  refine ⟨⟨rfl, rfl⟩, ?_, ?_⟩
  · rw [hall]
  · rw [hall]
    refine register_callback_full _ _ _ _ ?_
    simp [rpc_slave.fresh]
    omega

/-- C2 witness: on an AVR-sized table, registering the 16 distinct identifiers
0..15 all succeeds and a 17th distinct identifier is rejected with TableFull,
leaving the state unchanged. -/
theorem C2_register_table_full_witness :
    (MAX_CALLBACKS true = 16 ∧ MAX_CALLBACKS false = 32) ∧
    (rpc_slave.register_all (MAX_CALLBACKS true) rpc_slave.fresh
        ((List.range 16).map fun i => (i, 0))).2 = true ∧
    rpc_slave.register_callback (MAX_CALLBACKS true)
        (rpc_slave.register_all (MAX_CALLBACKS true) rpc_slave.fresh
          ((List.range 16).map fun i => (i, 0))).1 16 0
      = ((rpc_slave.register_all (MAX_CALLBACKS true) rpc_slave.fresh
          ((List.range 16).map fun i => (i, 0))).1, RegResult.TableFull) :=
  C2_register_table_full true ((List.range 16).map fun i => (i, (0 : Nat)))
    (by decide) (by decide) 16 0 (by decide)

/-- C3: after registering N distinct (identifier, handler) pairs on a fresh
slave engine, with N at most MAX_CALLBACKS, find_callback returns the
registered handler for each of the N identifiers and none (NotFound, the null
handler) for every identifier not among them. -/
theorem C3_find_callback {α : Type} (avr : Bool) (pairs : List (Nat × α))
    (hnd : (pairs.map Prod.fst).Nodup) (hlen : pairs.length ≤ MAX_CALLBACKS avr) :
    (∀ p ∈ pairs,
      rpc_slave.find_callback
        (rpc_slave.register_all (MAX_CALLBACKS avr) rpc_slave.fresh pairs).1 p.1
        = some p.2) ∧
    (∀ rpc_id : Nat, rpc_id ∉ pairs.map Prod.fst →
      rpc_slave.find_callback
        (rpc_slave.register_all (MAX_CALLBACKS avr) rpc_slave.fresh pairs).1 rpc_id
        = none) := by
  have hall := register_all_spec (MAX_CALLBACKS avr) pairs rpc_slave.fresh hnd
    (by intro p _ e he; simp [rpc_slave.fresh] at he)
    (by simp [rpc_slave.fresh]; omega)
  rw [hall]
  simp only [rpc_slave.find_callback, rpc_slave.fresh, List.nil_append]
  constructor
  · intro p hp
    rw [find?_pairs_of_mem pairs hnd p hp]
    rfl
  · intro rpc_id hid
    have hnone : (pairs.find? fun e => e.1 == rpc_id) = none := by
      refine List.find?_eq_none.mpr ?_
      intro e he
      simp only [beq_iff_eq]
      intro hc
      refine hid ?_
      rw [← hc]
      exact List.mem_map_of_mem Prod.fst he
    rw [hnone]
    rfl

/-- C3 witness: with handlers 100 and 200 registered under identifiers 1 and 2
on an AVR-sized table, find_callback returns handler 100 for identifier 1 and
none for the unregistered identifier 3. -/
theorem C3_find_callback_witness :
    rpc_slave.find_callback
        (rpc_slave.register_all (MAX_CALLBACKS true) rpc_slave.fresh [(1, 100), (2, 200)]).1 1
      = some 100 ∧
    rpc_slave.find_callback
        (rpc_slave.register_all (MAX_CALLBACKS true) rpc_slave.fresh [(1, 100), (2, 200)]).1 3
      = none :=
  ⟨(C3_find_callback true [(1, 100), (2, 200)] (by decide) (by decide)).1
      (1, 100) (by decide),
   (C3_find_callback true [(1, 100), (2, 200)] (by decide) (by decide)).2
      3 (by decide)⟩

/-- C8: in every reachable slave-engine state no two callback-table entries
share a call identifier, and registering an identifier that is already present
never adds a second entry for it: the state comes back unchanged (a silent
no-op; failure is reported only through the table-full rule). -/
theorem C8_table_invariant {α : Type} (maxCallbacks : Nat) (s : rpc_slave α)
    (h : rpc_slave.Reachable maxCallbacks s) :
    (s._rpcList.map Prod.fst).Nodup ∧
    ∀ rpc_id : Nat, ∀ pfnCB : α,
      (s._rpcList.any fun e => e.1 == rpc_id) = true →
      (rpc_slave.register_callback maxCallbacks s rpc_id pfnCB).1 = s :=
  ⟨reachable_nodup maxCallbacks s h,
   fun rpc_id pfnCB hdup => register_callback_dup maxCallbacks s rpc_id pfnCB hdup⟩

/-- C8 witness: the reachable state holding the single entry (5, 7) has
pairwise-distinct identifiers, and re-registering identifier 5 with a new
handler returns that state unchanged. -/
theorem C8_table_invariant_witness :
    (((rpc_slave.register_callback 16 (rpc_slave.fresh (α := Nat)) 5 7).1._rpcList.map
        Prod.fst).Nodup) ∧
    (rpc_slave.register_callback 16
        (rpc_slave.register_callback 16 (rpc_slave.fresh (α := Nat)) 5 7).1 5 9).1
      = (rpc_slave.register_callback 16 (rpc_slave.fresh (α := Nat)) 5 7).1 :=
  ⟨(C8_table_invariant 16 _
      (rpc_slave.Reachable.register _ 5 7 rpc_slave.Reachable.fresh)).1,
   (C8_table_invariant 16 _
      (rpc_slave.Reachable.register _ 5 7 rpc_slave.Reachable.fresh)).2 5 9 (by decide)⟩

/-- C9: scheduling a handler makes it the sole scheduled handler, replacing
whatever handler was scheduled before, and leaves the callback table alone;
the header's single _schedule_cb pointer (ArduinoRPC.h line 101) is the only
deferred-handler storage, so at most one deferred handler ever exists. -/
theorem C9_schedule_replaces {α : Type} (s : rpc_slave α) (pfnCB : α) :
    (rpc_slave.schedule_callback s pfnCB)._schedule_cb = some pfnCB ∧
    (rpc_slave.schedule_callback s pfnCB)._rpcList = s._rpcList :=
  ⟨rfl, rfl⟩

/-- Modelled from the spec: the retry loop of RPC::get_packet / RPC::put_packet
(declared at ArduinoRPC.h lines 57-58) is not under src.  Spec section 4.3:
each exchange is attempted against the transport with a short per-attempt
timeout and retried on failure, every retry re-armed with the same short
timeout; `attempt i t` tells whether the i-th attempt armed with short timeout
t succeeds, and the recursion stops at the first success or when the fixed
retry budget is spent. -/
def exchange_from (attempt : Nat → Nat → Bool) (t i : Nat) : Nat → Bool
  | 0 => false
  | k + 1 => attempt i t || exchange_from attempt t (i + 1) k

/-- Modelled from the spec: one whole packet exchange with `retries` attempts
starting at attempt index 0. -/
def exchange (attempt : Nat → Nat → Bool) (t retries : Nat) : Bool :=
  exchange_from attempt t 0 retries

/-- Modelled from the spec: how many attempts the exchange actually makes
(it stops at the first success). -/
def exchange_tries_from (attempt : Nat → Nat → Bool) (t i : Nat) : Nat → Nat
  | 0 => 0
  | k + 1 => if attempt i t then 1 else 1 + exchange_tries_from attempt t (i + 1) k

/-- Modelled from the spec: attempts made by a whole exchange. -/
def exchange_tries (attempt : Nat → Nat → Bool) (t retries : Nat) : Nat :=
  exchange_tries_from attempt t 0 retries

/-- Modelled from the spec: total time the exchange spends, given the duration
`dur i` of the i-th attempt; the engine keeps no clock of its own beyond the
per-attempt short timeout and the retry budget. -/
def exchange_elapsed_from (attempt : Nat → Nat → Bool) (dur : Nat → Nat)
    (t i : Nat) : Nat → Nat
  | 0 => 0
  | k + 1 =>
    if attempt i t then dur i else dur i + exchange_elapsed_from attempt dur t (i + 1) k

/-- Modelled from the spec: total time spent by a whole exchange. -/
def exchange_elapsed (attempt : Nat → Nat → Bool) (dur : Nat → Nat)
    (t retries : Nat) : Nat :=
  exchange_elapsed_from attempt dur t 0 retries

theorem exchange_from_eq_false (attempt : Nat → Nat → Bool) (t : Nat) :
    ∀ k i, (exchange_from attempt t i k = false ↔ ∀ j < k, attempt (i + j) t = false) := by
  intro k
  induction k with
  | zero => intro i; simp [exchange_from]
  | succ k ih =>
    intro i
    unfold exchange_from
    rw [Bool.or_eq_false_iff]
    constructor
    · rintro ⟨h0, hrest⟩ j hj
      cases j with
      | zero => simpa using h0
      | succ j' =>
        have := (ih (i + 1)).mp hrest j' (by omega)
        rwa [show i + 1 + j' = i + (j' + 1) by omega] at this
    · intro hall
      refine ⟨by simpa using hall 0 (by omega), (ih (i + 1)).mpr ?_⟩
      intro j hj
      have := hall (j + 1) (by omega)
      rwa [show i + (j + 1) = i + 1 + j by omega] at this

theorem exchange_tries_from_le (attempt : Nat → Nat → Bool) (t : Nat) :
    ∀ k i, exchange_tries_from attempt t i k ≤ k := by
  intro k
  induction k with
  | zero => intro i; simp [exchange_tries_from]
  | succ k ih =>
    intro i
    unfold exchange_tries_from
    by_cases h : attempt i t = true
    · rw [if_pos h]; omega
    · rw [if_neg h]
      have := ih (i + 1)
      omega

theorem exchange_elapsed_from_le (attempt : Nat → Nat → Bool) (dur : Nat → Nat)
    (t : Nat) (hdur : ∀ j, dur j ≤ t) :
    ∀ k i, exchange_elapsed_from attempt dur t i k ≤ k * t := by
  intro k
  induction k with
  | zero => intro i; simp [exchange_elapsed_from]
  | succ k ih =>
    intro i
    unfold exchange_elapsed_from
    by_cases h : attempt i t = true
    · rw [if_pos h]
      calc dur i ≤ t := hdur i
        _ ≤ k * t + t := Nat.le_add_left t (k * t)
        _ = (k + 1) * t := (Nat.succ_mul k t).symm
    · rw [if_neg h]
      calc dur i + exchange_elapsed_from attempt dur t (i + 1) k
          ≤ t + k * t := Nat.add_le_add (hdur i) (ih (i + 1))
        _ = k * t + t := Nat.add_comm t (k * t)
        _ = (k + 1) * t := (Nat.succ_mul k t).symm

/-- C5: a packet exchange fails to its caller exactly when all of its fixed
number of retries fail; the engine makes at most `retries` attempts and, when
each attempt respects its short timeout, spends at most retries times the
short timeout in total — the model maintains no overall internal deadline of
its own beyond that product. -/
theorem C5_retry_exhaustion (attempt : Nat → Nat → Bool) (t retries : Nat) :
    (exchange attempt t retries = false ↔ ∀ i < retries, attempt i t = false) ∧
    exchange_tries attempt t retries ≤ retries ∧
    (∀ dur : Nat → Nat, (∀ j, dur j ≤ t) →
      exchange_elapsed attempt dur t retries ≤ retries * t) := by
  refine ⟨?_, exchange_tries_from_le attempt t retries 0,
    fun dur hdur => exchange_elapsed_from_le attempt dur t hdur retries 0⟩
  have h := exchange_from_eq_false attempt t retries 0
  unfold exchange
  simpa using h

/-- C5 witness: an exchange whose attempts all fail within a budget of 3
retries fails, makes at most 3 attempts, and spends at most 3 times the short
timeout 5 when every attempt takes 4 time units. -/
theorem C5_retry_exhaustion_witness :
    exchange (fun _ _ => false) 5 3 = false ∧
    exchange_tries (fun _ _ => false) 5 3 ≤ 3 ∧
    exchange_elapsed (fun _ _ => false) (fun _ => 4) 5 3 ≤ 3 * 5 :=
  ⟨(C5_retry_exhaustion (fun _ _ => false) 5 3).1.mpr (fun _ _ => rfl),
   (C5_retry_exhaustion (fun _ _ => false) 5 3).2.1,
   (C5_retry_exhaustion (fun _ _ => false) 5 3).2.2 (fun _ => 4) (fun _ => Nat.le_succ 4)⟩

/-- C4: the retry-count-reset constants of the two engine roles are 3 for
master instances and 2 for slave instances (ArduinoRPC.h lines 84-85 and
103-104), and an exchange governed by them retries a failed attempt with the
same short timeout up to exactly that many attempts. -/
theorem C4_retry_constants :
    rpc_master._put_short_timeout_reset = 3 ∧
    rpc_master._get_short_timeout_reset = 3 ∧
    rpc_slave._put_short_timeout_reset = 2 ∧
    rpc_slave._get_short_timeout_reset = 2 ∧
    (∀ (attempt : Nat → Nat → Bool) (t : Nat),
      exchange attempt t rpc_master._put_short_timeout_reset
        = (attempt 0 t || (attempt 1 t || attempt 2 t))) ∧
    (∀ (attempt : Nat → Nat → Bool) (t : Nat),
      exchange attempt t rpc_slave._put_short_timeout_reset
        = (attempt 0 t || attempt 1 t)) := by
  refine ⟨rfl, rfl, rfl, rfl, ?_, ?_⟩ <;>
    intro attempt t <;>
    simp [exchange, exchange_from, rpc_master._put_short_timeout_reset,
      rpc_slave._put_short_timeout_reset]

/-- C10: the base-class byte primitives RPC::get_bytes and RPC::put_bytes
return false on every input and have no effect, and, being non-virtual, any
byte transfer invoked through the base RPC class statically resolves to these
always-failing stubs no matter what override a medium subclass supplies. -/
theorem C10_base_stubs_always_fail (override1 override2 : List Nat → Nat → Int → Bool)
    (data : List Nat) (len : Nat) (timeout : Int) :
    RPC.get_bytes data len timeout = false ∧
    RPC.put_bytes data len timeout = false ∧
    RPC.base_call_get_bytes override1 data len timeout = false ∧
    RPC.base_call_put_bytes override2 data len timeout = false :=
  ⟨rfl, rfl, rfl, rfl⟩
